import Mathlib

/-!
Verification of the dbnomics-python-client pagination-and-assembly core.

The development shallowly embeds the two historical client variants found in
the repository:

* `src/dbnomics_client/__init__.py` — `fetch_from_url`, its helper
  `get_nb_series`, and the flattener `iter_column_json_dicts` /
  `iter_expanded_dicts`;
* `src/dbnomics/__init__.py` — `fetch_series_by_url` and its final
  pandas assembly, together with `src/dbnomics/internals.py` —
  `fetch_series_json_page`.

JSON objects are modelled as insertion-ordered association lists (Python
dicts preserve insertion order); JSON scalars as `Prim`; the HTTP layer is
abstracted as a function from the requested offset to the decoded page,
exactly the data the loops consume after `fetch_series_json_page` returns.
The unbounded Python `while True` loops are embedded with an explicit fuel
argument: exhausting the fuel returns `none`, a normal `break` returns
`some` of the Python return value, and a raised exception returns an
`Except.error`.
-/

/-- A Python scalar value as it appears in the JSON payloads: a string, an
integer, or `None`. -/
inductive Prim where
  | s : String → Prim
  | i : Int → Prim
  | null : Prim
deriving DecidableEq, Repr

/-- A JSON value stored in a series record or an observation row: either a
scalar or a list of scalars (the parallel arrays `period`, `value`, ...). -/
inductive Value where
  | prim : Prim → Value
  | list : List Prim → Value
deriving DecidableEq, Repr

/-- A Python dict with insertion order, as an association list. -/
abbrev Dict := List (String × Value)

/-- `d.get k`: the value bound to `k`, `none` when the key is absent
(Python `d.get(k)`; `d[k]` raising `KeyError` is modelled at call sites). -/
def Dict.get (d : Dict) (k : String) : Option Value :=
  (d.find? (fun p => p.1 == k)).map Prod.snd

/-- `d[k] = v` on a Python dict: update in place when the key exists
(keeping its position), append otherwise. -/
def Dict.set (d : Dict) (k : String) (v : Value) : Dict :=
  if d.any (fun p => p.1 == k) then
    d.map (fun p => if p.1 == k then (k, v) else p)
  else d ++ [(k, v)]

/-- Python `len` on a JSON value: defined for strings and lists, a
`TypeError` (modelled as `none`) on other scalars. -/
def pyLen : Value → Option Nat
  | Value.prim (Prim.s str) => some str.length
  | Value.prim _ => none
  | Value.list l => some l.length

/-- The list-valued fields of a record, in insertion order, with their
element lists (`[k for k, v in d.items() if isinstance(v, list)]` paired
with the corresponding `d[k]`). -/
def listFields (d : Dict) : List (String × List Prim) :=
  d.filterMap (fun p =>
    match p.2 with
    | Value.list l => some (p.1, l)
    | _ => none)

/-- Number of tuples produced by Python `zip(*lists)`: zero when there is no
list at all, otherwise the minimum of the list lengths. -/
def minLenFields (fs : List (String × List Prim)) : Nat :=
  match fs with
  | [] => 0
  | f :: rest => rest.foldl (fun a p => min a p.2.length) f.2.length

/-- Errors raised by the embedded client code (Python `AssertionError`,
`KeyError`, `ValueError` and the dedicated `TooManySeries` exception). -/
inductive Err where
  | assertPeriodIn
  | assertValueIn
  | assertLenEq
  | typeErrorLen
  | keyErrorCode
  | tooManySeries (num_found : Nat)
  | assertNbLeNumFound (nb num_found : Nat)
  | assertDatasetCode
  | assertDatasetName
  | assertMaxNbPositive
  | pdNoObjects
  | pdLengthMismatch
  | pdAllScalar
deriving DecidableEq, Repr

/-- One output row of `iter_expanded_dicts` (dbnomics_client/__init__.py,
body of the `for` loop): `d.copy()`, then `dataset_code` is set, then
`dataset_name` is set when truthy (non-`None`, non-empty), then every
list-valued key is overwritten with its element at position `i` of the
`zip` tuple. -/
def expandRow (dataset_code : String) (dataset_name : Option String) (d : Dict) (i : Nat) : Dict :=
  let base := d.set "dataset_code" (Value.prim (Prim.s dataset_code))
  let base :=
    match dataset_name with
    | some nm => if nm = "" then base else base.set "dataset_name" (Value.prim (Prim.s nm))
    | none => base
  (listFields d).foldl (fun r p => r.set p.1 (Value.prim (p.2.getD i Prim.null))) base

/-- `iter_expanded_dicts` (dbnomics_client/__init__.py, lines 149-165):
asserts that the literal keys `period` and `value` are present and that
`len(d["period"]) == len(d["value"])`, then yields one row per `zip` tuple
over all list-valued fields (`zip` truncates to the shortest list). -/
def iter_expanded_dicts (dataset_code : String) (dataset_name : Option String) (d : Dict) :
    Except Err (List Dict) :=
  match d.get "period" with
  | none => .error .assertPeriodIn
  | some pv =>
    match d.get "value" with
    | none => .error .assertValueIn
    | some vv =>
      match pyLen pv, pyLen vv with
      | some lp, some lv =>
        if lp = lv then
          .ok ((List.range (minLenFields (listFields d))).map
            (expandRow dataset_code dataset_name d))
        else .error .assertLenEq
      | _, _ => .error .typeErrorLen

/-- `iter_column_json_dicts` (dbnomics_client/__init__.py, lines 129-167):
`itertools.chain.from_iterable(map(iter_expanded_dicts, seq))`, consumed as
a list — the first failing record aborts the whole consumption. -/
def iter_column_json_dicts (seq : List Dict) (dataset_code : String)
    (dataset_name : Option String) : Except Err (List Dict) :=
  match seq with
  | [] => .ok []
  | d :: rest =>
    match iter_expanded_dicts dataset_code dataset_name d with
    | .error e => .error e
    | .ok rows =>
      match iter_column_json_dicts rest dataset_code dataset_name with
      | .error e => .error e
      | .ok more => .ok (rows ++ more)

/-- The check actually performed by `iter_expanded_dicts` before emitting
rows: `period` and `value` are present and their Python `len`s are defined
and equal. -/
def pvCheck (d : Dict) : Bool :=
  match d.get "period", d.get "value" with
  | some pv, some vv =>
    match pyLen pv, pyLen vv with
    | some lp, some lv => lp == lv
    | _, _ => false
  | _, _ => false

/-- The mapping of each accumulated row to its `code` field inside
`get_nb_series`, raising `KeyError` (modelled as `Err.keyErrorCode`) on
the first row that lacks the key. -/
def collectCodes : List Dict → Except Err (List Value)
  | [] => .ok []
  | e :: rest =>
    match e.get "code" with
    | none => .error .keyErrorCode
    | some v => (collectCodes rest).map (v :: ·)

/-- `get_nb_series` (dbnomics_client/__init__.py, lines 85-86):
the length of the set of `code` values mapped over the accumulated rows
— the number of distinct `code` values. -/
def get_nb_series (rows : List Dict) : Except Err Nat :=
  (collectCodes rows).map (fun codes => codes.dedup.length)

/-- The `dataset` object of a page response: `code` plus the optional
display `name` (`dataset_json.get("name")`). -/
structure DatasetJson where
  code : String
  name : Option String
deriving DecidableEq, Repr

/-- The `series` object of a page response, after `fetch_series_json_page`
has already checked the offset echo: the reported total `num_found` and
the `data` array of series records of the page. -/
structure SeriesPage where
  num_found : Nat
  data : List Dict
deriving DecidableEq, Repr

/-- The HTTP layer as seen by the aggregation loops: the decoded, already
validated page served for a requested offset, or the fetch error the page
fetcher raised. -/
abbrev ServerFn := Nat → Except Err (DatasetJson × SeriesPage)

/-- `default_max_nb_series = 50` (dbnomics/__init__.py, line 39). -/
def default_max_nb_series : Nat := 50

/-- `default_limit = 3000` (dbnomics_client/__init__.py, line 34). -/
def default_limit : Nat := 3000

/-- The `while True` loop of `fetch_from_url` (dbnomics_client/__init__.py,
lines 89-97), with explicit fuel.  Each iteration requests the page at
`offset = get_nb_series()`, flattens its `data` through
`iter_column_json_dicts`, extends the accumulated rows, and stops when the
limit (when not `None`) is reached or all `num_found` series were seen.
The first component of the result records, for each request, the offset
passed to the fetcher and the rows accumulated at that moment. -/
def fetch_from_url_go (server : ServerFn) (limit : Option Nat) :
    Nat → List Dict → List (Nat × List Dict) →
    List (Nat × List Dict) × Except Err (Option (List Dict))
  | 0, _, trace => (trace, .ok none)
  | fuel + 1, rows, trace =>
    match get_nb_series rows with
    | .error e => (trace, .error e)
    | .ok offset =>
      let trace := trace ++ [(offset, rows)]
      match server offset with
      | .error e => (trace, .error e)
      | .ok (ds, page) =>
        match iter_column_json_dicts page.data ds.code ds.name with
        | .error e => (trace, .error e)
        | .ok newRows =>
          let rows := rows ++ newRows
          match get_nb_series rows with
          | .error e => (trace, .error e)
          | .ok nb =>
            let stop : Bool :=
              (match limit with
               | some l => decide (l ≤ nb)
               | none => false) || decide (nb = page.num_found)
            if stop then (trace, .ok (some rows))
            else fetch_from_url_go server limit fuel rows trace

/-- `fetch_from_url` (dbnomics_client/__init__.py, lines 69-98): run the
loop from an empty accumulator; the final `pd.DataFrame(series_json_list)`
is represented by the row list itself. -/
def fetch_from_url (server : ServerFn) (limit : Option Nat) (fuel : Nat) :
    Except Err (Option (List Dict)) :=
  (fetch_from_url_go server limit fuel [] []).2

/-- The `while True` loop of `fetch_series_by_url` (dbnomics/__init__.py,
lines 208-245), with explicit fuel.  State: requested `offset`, the raw
accumulated `series_list`, and the dataset code and name pinned from the
first page.  Mirrors the source order: fetch, dataset-consistency asserts,
`TooManySeries` guard, extend, cap stop (with `series_list[:max_nb_series]`
truncation), `nb_series <= num_found` assert, exhaustion stop, and
`offset += nb_series`.  The first component records, for each request, the
offset passed to the fetcher and `len(series_list)` at that moment. -/
def fetch_series_by_url_go (server : ServerFn) (max_nb_series : Option Nat) :
    Nat → Nat → List Dict → Option (String × Option String) → List (Nat × Nat) →
    List (Nat × Nat) × Except Err (Option (List Dict × String × Option String))
  | 0, _, _, _, trace => (trace, .ok none)
  | fuel + 1, offset, series_list, pinned, trace =>
    let trace := trace ++ [(offset, series_list.length)]
    match server offset with
    | .error e => (trace, .error e)
    | .ok (ds, page) =>
      let checkPinned : Except Err (String × Option String) :=
        match pinned with
        | none => .ok (ds.code, ds.name)
        | some (c, n) =>
          if c ≠ ds.code then .error .assertDatasetCode
          else if n ≠ ds.name then .error .assertDatasetName
          else .ok (c, n)
      match checkPinned with
      | .error e => (trace, .error e)
      | .ok pin =>
        if max_nb_series = none ∧ default_max_nb_series < page.num_found then
          (trace, .error (.tooManySeries page.num_found))
        else
          let series_list := series_list ++ page.data
          let nb := series_list.length
          let next :=
            if ¬ nb ≤ page.num_found then
              (trace, Except.error (Err.assertNbLeNumFound nb page.num_found))
            else if nb = page.num_found then (trace, Except.ok (some (series_list, pin)))
            else
              fetch_series_by_url_go server max_nb_series fuel (offset + nb)
                series_list (some pin) trace
          match max_nb_series with
          | some m =>
            if m ≤ nb then
              (trace, .ok (some ((if m < nb then series_list.take m else series_list), pin)))
            else next
          | none => next

/-- `pd.DataFrame(series_record)` on a dict mixing scalars and lists:
pandas requires at least one list-valued column (all-scalar input raises),
requires all list columns to have one common length (else raises), and
broadcasts every scalar column over that length. -/
def pdDataFrame (d : Dict) : Except Err (List Dict) :=
  match listFields d with
  | [] => .error .pdAllScalar
  | f :: rest =>
    if rest.all (fun p => p.2.length = f.2.length) then
      .ok ((List.range f.2.length).map (fun i =>
        d.map (fun kv =>
          (kv.1,
            match kv.2 with
            | Value.list l => Value.prim (l.getD i Prim.null)
            | v => v))))
    else .error .pdLengthMismatch

/-- `pd.concat(frames)`: raises `ValueError("No objects to concatenate")`
on an empty iterable, otherwise concatenates the rows.  (The NaN column
alignment of concat is not modelled; the development only relies on the
empty-input error and on row concatenation.) -/
def pd_concat (frames : List (List Dict)) : Except Err (List Dict) :=
  match frames with
  | [] => .error .pdNoObjects
  | _ => .ok frames.flatten

/-- `dataframe[k] = v`: set column `k` of every row to the scalar `v`. -/
def df_set_col (df : List Dict) (k : String) (v : Value) : List Dict :=
  df.map (fun r => r.set k v)

/-- The tail of `fetch_series_by_url` (dbnomics/__init__.py, lines 247-250):
`pd.concat(map(pd.DataFrame, series_list))`, then the `dataset_code` and
`dataset_name` columns are assigned unconditionally (`None` becomes a null
column value). -/
def fetch_series_by_url_result (server : ServerFn) (max_nb_series : Option Nat)
    (fuel : Nat) : Except Err (Option (List Dict)) :=
  match (fetch_series_by_url_go server max_nb_series fuel 0 [] none []).2 with
  | .error e => .error e
  | .ok none => .ok none
  | .ok (some (series_list, code, name)) =>
    match series_list.mapM pdDataFrame with
    | .error e => .error e
    | .ok frames =>
      match pd_concat frames with
      | .error e => .error e
      | .ok df =>
        .ok (some (df_set_col
          (df_set_col df "dataset_code" (Value.prim (Prim.s code)))
          "dataset_name"
          (match name with
           | some n => Value.prim (Prim.s n)
           | none => Value.prim Prim.null)))

/-- `fetch_series_by_url` (dbnomics/__init__.py, lines 190-250): the
`assert max_nb_series is None or max_nb_series >= 1` guard, the loop, and
the pandas assembly. -/
def fetch_series_by_url (server : ServerFn) (max_nb_series : Option Nat)
    (fuel : Nat) : Except Err (Option (List Dict)) :=
  match max_nb_series with
  | some m =>
    if m < 1 then .error .assertMaxNbPositive
    else fetch_series_by_url_result server max_nb_series fuel
  | none => fetch_series_by_url_result server none fuel

/-- A semantic version as compared by `semver.match` on the
`MAJOR.MINOR.PATCH` components. -/
structure Version where
  major : Nat
  minor : Nat
  patch : Nat
deriving DecidableEq, Repr

/-- Strict semantic-version order (lexicographic on major, minor, patch). -/
def versionLt (a b : Version) : Bool :=
  if a.major = b.major then
    (if a.minor = b.minor then decide (a.patch < b.patch)
     else decide (a.minor < b.minor))
  else decide (a.major < b.major)

/-- `api_min_version`, the string 0.14.0 (dbnomics/internals.py, line 26). -/
def api_min_version : Version := ⟨0, 14, 0⟩

/-- `api_max_version`, the string 0.18.0 (dbnomics/internals.py, line 27). -/
def api_max_version : Version := ⟨0, 18, 0⟩

/-- `api_version_matches` (dbnomics/internals.py, lines 31-33):
`semver.match(v, ">=" + min) and semver.match(v, "<" + max)`. -/
def api_version_matches (v : Version) : Bool :=
  (!(versionLt v api_min_version)) && versionLt v api_max_version

/-- The `series` sub-object of a decoded response body, including the
offset echoed by the server. -/
structure SeriesPageJson where
  offset : Nat
  num_found : Nat
  data : List Dict
deriving DecidableEq, Repr

/-- A decoded response body: the `_meta` version string (`none` models a
missing `_meta`/`python_project_version` key, a `KeyError` on access), the
optional `error_description`, the optional `series` results object, and
the optional `dataset` descriptor. -/
structure RespJson where
  meta_python_project_version : Option Version
  error_description : Option String
  series : Option SeriesPageJson
  dataset : Option DatasetJson
deriving DecidableEq, Repr

/-- An HTTP response as consumed by `fetch_series_json_page`: the success
flag `response.ok` and the decoded JSON body (`none` when the body is not
valid JSON). -/
structure HttpResponse where
  ok : Bool
  json : Option RespJson
deriving DecidableEq, Repr

/-- The distinct failures `fetch_series_json_page` can raise, one per
`raise`/`assert` site, in source order. -/
inductive FetchError where
  | malformedResponse
  | requestFailed
  | keyErrorMeta
  | incompatibleApiVersion
  | errorDescriptionPresent
  | missingSeriesKey
  | offsetMismatch
deriving DecidableEq, Repr

/-- `fetch_series_json_page` (dbnomics/internals.py, lines 36-71), applied
to the already received response.  Source order of the checks: JSON decode,
`response.ok`, `_meta` version lookup and compatibility, the
`error_description` probe, the `series` key, and finally the assertion
that the offset inside the `series` object echoes the requested one. -/
def fetch_series_json_page (response : HttpResponse) (offset : Nat) :
    Except FetchError RespJson :=
  match response.json with
  | none => .error .malformedResponse
  | some rj =>
    if !response.ok then .error .requestFailed
    else
      match rj.meta_python_project_version with
      | none => .error .keyErrorMeta
      | some v =>
        if !api_version_matches v then .error .incompatibleApiVersion
        else if rj.error_description.isSome then .error .errorDescriptionPresent
        else
          match rj.series with
          | none => .error .missingSeriesKey
          | some page =>
            if page.offset ≠ offset then .error .offsetMismatch
            else .ok rj

/-- A minimal series record carrying only a `code` field, as consumed by
the raw-record accumulator of `fetch_series_by_url`. -/
def recCode (c : String) : Dict := [("code", Value.prim (Prim.s c))]

/-- A series record with a `code`, a one-element `period` array and a
one-element `value` array, as consumed by `fetch_from_url`. -/
def recPV (c : String) : Dict :=
  [("code", Value.prim (Prim.s c)),
   ("period", Value.list [Prim.s "2010"]),
   ("value", Value.list [Prim.i 1])]

/-- The row `iter_column_json_dicts` emits for `recPV c` under dataset
code `D` with no dataset name. -/
def rowPV (c : String) : Dict :=
  [("code", Value.prim (Prim.s c)),
   ("period", Value.prim (Prim.s "2010")),
   ("value", Value.prim (Prim.i 1)),
   ("dataset_code", Value.prim (Prim.s "D"))]

/-- A server holding five series `S0`..`S4` and answering every request
with the page of at most two records starting at the requested offset,
reporting `num_found = 5`. -/
def serverFive : ServerFn := fun offset =>
  .ok (⟨"D", some "N"⟩,
    ⟨5, (([recCode "S0", recCode "S1", recCode "S2", recCode "S3",
           recCode "S4"].drop offset).take 2)⟩)

/-- A server reporting `num_found = 3` whose page at offset 0 is the single
record `A` and whose page at offset 1 repeats `A` before `B`. -/
def serverRepeatA : ServerFn := fun offset =>
  .ok (⟨"D", none⟩,
    ⟨3, if offset = 0 then [recCode "A"]
        else if offset = 1 then [recCode "A", recCode "B"]
        else []⟩)

/-- A server reporting `num_found = 3001` (past every configured cap),
serving one series per page. -/
def serverBigCount : ServerFn := fun offset =>
  .ok (⟨"D", none⟩,
    ⟨3001, if offset = 0 then [recPV "A"]
           else if offset = 1 then [recPV "B"]
           else []⟩)

/-- A server matching three series and serving all of them on the first
page. -/
def serverThreeAtOnce : ServerFn := fun offset =>
  .ok (⟨"D", none⟩,
    ⟨3, if offset = 0 then [recPV "A", recPV "B", recPV "C"] else []⟩)

/-- A raw-record server for the same three-at-once query. -/
def serverThreeAtOnceRaw : ServerFn := fun offset =>
  .ok (⟨"D", none⟩,
    ⟨3, if offset = 0 then [recCode "A", recCode "B", recCode "C"] else []⟩)

/-- A two-page raw-record server on which the code `B` appears on both
pages while `num_found = 3` counts each series once. -/
def serverOverlapRaw : ServerFn := fun offset =>
  .ok (⟨"D", none⟩,
    ⟨3, if offset = 0 then [recCode "A", recCode "B"]
        else if offset = 2 then [recCode "B", recCode "C"]
        else []⟩)

/-- The same overlapping two-page response with flattenable records. -/
def serverOverlapPV : ServerFn := fun offset =>
  .ok (⟨"D", none⟩,
    ⟨3, if offset = 0 then [recPV "A", recPV "B"]
        else if offset = 2 then [recPV "B", recPV "C"]
        else []⟩)

/-- A server whose query matches nothing: `num_found = 0`, empty `data`. -/
def serverEmpty : ServerFn := fun _ => .ok (⟨"D", some "N"⟩, ⟨0, []⟩)

/-- A one-series server whose dataset has no display name. -/
def serverNoName : ServerFn := fun _ => .ok (⟨"D", none⟩, ⟨1, [recPV "A"]⟩)

/-- A record whose `period` and `value` arrays agree in length while a
third list-valued field `extra` is longer. -/
def dExtra : Dict :=
  [("period", Value.list [Prim.s "2010"]),
   ("value", Value.list [Prim.i 1]),
   ("extra", Value.list [Prim.s "x", Prim.s "y"])]

/-- The series record of the flattening example in the specification:
scalar `FREQ`, two periods, two values. -/
def exFlat : Dict :=
  [("FREQ", Value.prim (Prim.s "A")),
   ("period", Value.list [Prim.s "2010", Prim.s "2011"]),
   ("value", Value.list [Prim.i 1, Prim.i 2])]

/-- A decoded response body that is version-incompatible (version 0.10.0,
below the supported minimum 0.14.0) and also lacks the `series` key. -/
def rjOldVersionNoSeries : RespJson :=
  { meta_python_project_version := some ⟨0, 10, 0⟩
    error_description := none
    series := none
    dataset := none }

/-- A successful HTTP response carrying `rjOldVersionNoSeries`. -/
def respOldVersionNoSeries : HttpResponse :=
  { ok := true, json := some rjOldVersionNoSeries }

/-- A server reporting 51 matching series. -/
def serverFiftyOne : ServerFn := fun _ => .ok (⟨"D", none⟩, ⟨51, []⟩)

/-- Whether an embedded Python call returned normally (no exception). -/
def exceptIsOk {ε α : Type} : Except ε α → Bool
  | .ok _ => true
  | .error _ => false

/-- The row `fetch_series_by_url` produces for `recPV A` when the dataset
has no display name: the `dataset_name` column is present with a null
value. -/
def rowNoNameFull : Dict :=
  [("code", Value.prim (Prim.s "A")),
   ("period", Value.prim (Prim.s "2010")),
   ("value", Value.prim (Prim.i 1)),
   ("dataset_code", Value.prim (Prim.s "D")),
   ("dataset_name", Value.prim Prim.null)]

/-- A decoded body with a compatible version and no `series` key. -/
def rjMissingSeries : RespJson :=
  { meta_python_project_version := some ⟨0, 14, 0⟩
    error_description := none
    series := none
    dataset := none }

/-- A `series` object echoing offset 7. -/
def pageEchoSeven : SeriesPageJson := { offset := 7, num_found := 0, data := [] }

/-- A decoded body with a compatible version whose `series` echoes
offset 7. -/
def rjWrongOffset : RespJson :=
  { meta_python_project_version := some ⟨0, 14, 0⟩
    error_description := none
    series := some pageEchoSeven
    dataset := none }

/-- A decoded body reporting version 0.18.0, at the excluded upper bound
of the supported range. -/
def rjTooNew : RespJson :=
  { meta_python_project_version := some ⟨0, 18, 0⟩
    error_description := none
    series := some pageEchoSeven
    dataset := none }

/-- The docstring example of iter_column_json_dicts reproduced on the
embedding. -/
theorem docstring_flattening_example :
    iter_column_json_dicts
      [[("code", Value.prim (Prim.s "s2")), ("FREQ", Value.prim (Prim.s "Q")),
        ("period", Value.list [Prim.s "2010"]), ("value", Value.list [Prim.i 999])]]
      "ABCD" (some "Very cool dataset") =
    .ok [[("code", Value.prim (Prim.s "s2")), ("FREQ", Value.prim (Prim.s "Q")),
          ("period", Value.prim (Prim.s "2010")), ("value", Value.prim (Prim.i 999)),
          ("dataset_code", Value.prim (Prim.s "ABCD")),
          ("dataset_name", Value.prim (Prim.s "Very cool dataset"))]] := by
  rfl


/-- Once `fetch_series_by_url` has over-shot the five-series result set
(requested offset at least 5 with only four records accumulated), every
further page of `serverFive` is empty, the exhaustion test `nb_series ==
num_found` can never succeed, and the loop consumes all its fuel. -/
theorem serverFive_loop_stuck (fuel : Nat) :
    ∀ offset trace, 5 ≤ offset →
      (fetch_series_by_url_go serverFive none fuel offset
        [recCode "S0", recCode "S1", recCode "S2", recCode "S3"]
        (some ("D", some "N")) trace).2 = Except.ok none := by
  induction fuel with
  | zero => intro offset trace _; rfl
  | succ n ih =>
    intro offset trace h
    have hd : ([recCode "S0", recCode "S1", recCode "S2", recCode "S3",
        recCode "S4"].drop offset) = [] := by
      apply List.drop_eq_nil_of_le
      simpa using h
    simp only [fetch_series_by_url_go, serverFive, hd]
    simp only [List.take_nil, List.append_nil]
    norm_num
    exact ih (offset + 4) _ (by omega)

/-- C1. The claim states that after processing a page the loop sets the
next requested offset to `nb_series`, the count of series retrieved so
far, never a running sum overshooting it.  `fetch_from_url` does exactly
that, but `fetch_series_by_url` executes `offset += nb_series` with the
cumulative `nb_series = len(series_list)`: on a five-series query served
two records per page, the requested offsets are 0, 2 and then 6 although
only four series have been accumulated before the third request, and the
overshot loop never terminates for any amount of fuel. -/
theorem c1_offset_running_sum_overshoots :
    fetch_series_by_url_go serverFive none 3 0 [] none [] =
      ([(0, 0), (2, 2), (6, 4)], Except.ok none) ∧
    ∀ fuel, (fetch_series_by_url_go serverFive none fuel 0 [] none []).2 =
      Except.ok none := by
  refine ⟨rfl, ?_⟩
  intro fuel
  match fuel with
  | 0 => rfl
  | 1 => rfl
  | 2 => rfl
  | (n + 3) =>
    show (fetch_series_by_url_go serverFive none (n + 2 + 1) 0 [] none []).2 =
      Except.ok none
    simp only [fetch_series_by_url_go, serverFive]
    norm_num [default_max_nb_series]
    exact serverFive_loop_stuck n 10 _ (by omega)

/-- C2 counterexample: run on a two-page response on which code `A`
reappears, `fetch_series_by_url` accumulates `[A, A, B]` and breaks
believing it has all `num_found = 3` series, while only two distinct
codes are present: its `nb_series = len(series_list)` is the raw list
length 3, not the distinct-code count 2. -/
theorem c2_raw_length_counterexample :
    (fetch_series_by_url_go serverRepeatA none 2 0 [] none []).2 =
      Except.ok (some ([recCode "A", recCode "A", recCode "B"], "D", none)) ∧
    ([recCode "A", recCode "A", recCode "B"] : List Dict).length = 3 ∧
    get_nb_series [recCode "A", recCode "A", recCode "B"] = Except.ok 2 :=
  ⟨rfl, rfl, rfl⟩

/-- The code extraction underlying `get_nb_series` equals the list of
`code` values when every row carries one. -/
theorem collectCodes_eq_filterMap (rows : List Dict)
    (h : ∀ e ∈ rows, (Dict.get e "code").isSome) :
    collectCodes rows = Except.ok (rows.filterMap (fun e => Dict.get e "code")) := by
  induction rows with
  | nil => rfl
  | cons e rest ih =>
    have he := h e (by simp)
    obtain ⟨v, hv⟩ := Option.isSome_iff_exists.mp he
    have hrest := ih (fun x hx => h x (by simp [hx]))
    simp [collectCodes, hv, hrest, Except.map]

/-- C2 (amended): in `fetch_from_url` the running count `get_nb_series`
is the number of distinct series codes in the accumulator (a code present
in several rows is counted once); in `fetch_series_by_url` the count
`nb_series = len(series_list)` is the raw length of the accumulated
record list and counts a repeated code once per record. -/
theorem c2_get_nb_series_counts_distinct_codes (rows : List Dict)
    (h : ∀ e ∈ rows, (Dict.get e "code").isSome) :
    get_nb_series rows =
      Except.ok ((rows.filterMap (fun e => Dict.get e "code")).toFinset.card) := by
  rw [get_nb_series, collectCodes_eq_filterMap rows h]
  simp [List.card_toFinset, Except.map]

/-- Witness for C2 at a concrete accumulator with a repeated code. -/
theorem c2_get_nb_series_witness :
    get_nb_series [recCode "A", recCode "A", recCode "B"] =
      Except.ok (([recCode "A", recCode "A", recCode "B"].filterMap
        (fun e => Dict.get e "code")).toFinset.card) :=
  c2_get_nb_series_counts_distinct_codes
    [recCode "A", recCode "A", recCode "B"] (by decide)

/-- C3 counterexample: called with its cap argument `None` on a query
reporting `num_found = 3001` — beyond both configured caps (50 and 3000) —
`fetch_from_url` raises nothing: it keeps accumulating (the second request
is issued with a non-empty accumulator) and simply runs on, because in
this variant `limit=None` means unlimited and no `TooManyResults`-style
guard exists at all. -/
theorem c3_fetch_from_url_unlimited_counterexample :
    fetch_from_url_go serverBigCount none 2 [] [] =
      ([(0, []), (1, [rowPV "A"])], Except.ok none) ∧
    default_limit < 3001 ∧ default_max_nb_series < 3001 ∧
    ([rowPV "A"] : List Dict) ≠ [] :=
  ⟨rfl, by decide, by decide, by decide⟩

/-- C3 (amended): `fetch_series_by_url` implements the claimed guard: with
`max_nb_series = None` and a first page reporting `num_found` above the
default cap of 50, the call raises `TooManySeries` carrying `num_found`,
before accumulating anything; `fetch_from_url` has no such guard — its
`limit=None` means unlimited. -/
theorem c3_fetch_series_by_url_default_cap_guard
    (server : ServerFn) (fuel : Nat) (ds : DatasetJson) (page : SeriesPage)
    (hs : server 0 = Except.ok (ds, page))
    (hn : default_max_nb_series < page.num_found) :
    fetch_series_by_url server none (fuel + 1) =
      Except.error (Err.tooManySeries page.num_found) := by
  simp [fetch_series_by_url, fetch_series_by_url_result,
    fetch_series_by_url_go, hs, hn]


/-- Witness for C3 at a concrete server reporting 51 found series. -/
theorem c3_default_cap_guard_witness :
    fetch_series_by_url serverFiftyOne none 1 =
      Except.error (Err.tooManySeries 51) :=
  c3_fetch_series_by_url_default_cap_guard serverFiftyOne 0 ⟨"D", none⟩
    ⟨51, []⟩ rfl (by decide)

/-- C5 counterexample: on the synthetic two-page response repeating code
`B` on both pages with `num_found = 3`, `fetch_series_by_url` counts the
repeated code twice (raw list length 4) and dies on its own
`nb_series <= num_found` assertion — exactly the count-exceeds-num_found
violation the claim rules out. -/
theorem c5_fetch_series_by_url_overlap_assert_counterexample :
    (fetch_series_by_url_go serverOverlapRaw none 2 0 [] none []).2 =
      Except.error (Err.assertNbLeNumFound 4 3) :=
  rfl

/-- C5 (amended): on the same overlapping two-page response,
`fetch_from_url` terminates after the second page, keeps all four rows
(duplicates are retained for flattening), and its deduplicated count is 3
— the repeated code `B` is counted once, matching `num_found` with no
violation and no further page request. -/
theorem c5_fetch_from_url_dedup_overlap :
    (fetch_from_url_go serverOverlapPV (some default_limit) 2 [] []).2 =
      Except.ok (some [rowPV "A", rowPV "B", rowPV "B", rowPV "C"]) ∧
    get_nb_series [rowPV "A", rowPV "B", rowPV "B", rowPV "C"] = Except.ok 3 :=
  ⟨rfl, rfl⟩

/-- C6. On an empty result set (`num_found = 0`, empty first page) both
loops terminate right after the first page, but `fetch_series_by_url`
then calls `pd.concat` on zero frames, which raises a `ValueError`
(`No objects to concatenate`) instead of returning an empty table, while
`fetch_from_url` returns the empty row list without error. -/
theorem c6_empty_result_pd_concat_raises :
    fetch_series_by_url serverEmpty none 1 = Except.error Err.pdNoObjects ∧
    fetch_from_url serverEmpty (some default_limit) 1 = Except.ok (some []) :=
  ⟨rfl, rfl⟩

/-- C4 counterexample: with an explicit cap of 2 on a query matching 3
series served in one page, `fetch_from_url` stops at the cap but returns
every accumulated row: rows from 3 distinct series codes, not 2 — it
never truncates. -/
theorem c4_fetch_from_url_no_truncation_counterexample :
    (fetch_from_url_go serverThreeAtOnce (some 2) 1 [] []).2 =
      Except.ok (some [rowPV "A", rowPV "B", rowPV "C"]) ∧
    get_nb_series [rowPV "A", rowPV "B", rowPV "C"] = Except.ok 3 :=
  ⟨rfl, rfl⟩

/-- C4 (amended): whenever `fetch_series_by_url` stops with an explicit
cap `max_nb_series = k`, the returned accumulator holds at most `k`
records — at the cap stop it is sliced to `series_list[:k]`, the first
`k` records in arrival order (stable truncation, shown concretely on a
three-at-once page with cap 2); `fetch_from_url` breaks at its limit but
returns everything accumulated, which can exceed the cap. -/
theorem c4_fetch_series_by_url_cap_truncation :
    (∀ (server : ServerFn) (k fuel offset : Nat) (acc : List Dict)
        (pinned : Option (String × Option String)) (trace tr : List (Nat × Nat))
        (L : List Dict) (pin : String × Option String),
        fetch_series_by_url_go server (some k) fuel offset acc pinned trace =
          (tr, Except.ok (some (L, pin))) → L.length ≤ k) ∧
    (fetch_series_by_url_go serverThreeAtOnceRaw (some 2) 1 0 [] none []).2 =
      Except.ok (some ([recCode "A", recCode "B"], "D", none)) := by
  refine ⟨?_, rfl⟩
  intro server k fuel
  induction fuel with
  | zero =>
    intro offset acc pinned trace tr L pin h
    simp [fetch_series_by_url_go] at h
  | succ n ih =>
    intro offset acc pinned trace tr L pin h
    simp only [fetch_series_by_url_go] at h
    split at h
    · simp at h
    · split at h
      · simp at h
      · split at h
        · simp at h
        · split at h
          · rename_i hk
            split at h
            · rename_i hlt
              injection h with h1 h2
              injection h2 with h3
              injection h3 with h4
              injection h4 with h5 h6
              subst h5
              simp [List.length_take]
            · rename_i hlt
              injection h with h1 h2
              injection h2 with h3
              injection h3 with h4
              injection h4 with h5 h6
              subst h5
              omega
          · rename_i hk
            split at h
            · simp at h
            · split at h
              · rename_i hnb
                injection h with h1 h2
                injection h2 with h3
                injection h3 with h4
                injection h4 with h5 h6
                subst h5
                omega
              · exact ih _ _ _ _ _ _ _ h


/-- A record passes the flattener precisely when it passes the
period/value check — no other field is inspected by the assertions. -/
theorem iter_expanded_dicts_isOk (dc : String) (dn : Option String) (d : Dict) :
    exceptIsOk (iter_expanded_dicts dc dn d) = pvCheck d := by
  unfold iter_expanded_dicts pvCheck
  cases d.get "period" with
  | none => rfl
  | some pv =>
    cases d.get "value" with
    | none => rfl
    | some vv =>
      cases hlp : pyLen pv with
      | none => cases hlv : pyLen vv <;> simp [hlp, hlv, exceptIsOk]
      | some lp =>
        cases hlv : pyLen vv with
        | none => simp [hlp, hlv, exceptIsOk]
        | some lv =>
          by_cases h : lp = lv <;> simp [hlp, hlv, h, exceptIsOk]

/-- The flattener of a page succeeds exactly when every record of the page
passes the period/value check. -/
theorem iter_column_json_dicts_isOk (seq : List Dict) (dc : String) (dn : Option String) :
    exceptIsOk (iter_column_json_dicts seq dc dn) = seq.all pvCheck := by
  induction seq with
  | nil => rfl
  | cons d rest ih =>
    simp only [iter_column_json_dicts, List.all_cons]
    cases hd : iter_expanded_dicts dc dn d with
    | error e =>
      have hc : pvCheck d = false := by
        rw [← iter_expanded_dicts_isOk dc dn d, hd]; rfl
      simp [hc, exceptIsOk]
    | ok rows =>
      have hc : pvCheck d = true := by
        rw [← iter_expanded_dicts_isOk dc dn d, hd]; rfl
      cases hr : iter_column_json_dicts rest dc dn with
      | error e =>
        have h2 : rest.all pvCheck = false := by rw [← ih, hr]; rfl
        simp [hc, h2, exceptIsOk]
      | ok more =>
        have h2 : rest.all pvCheck = true := by rw [← ih, hr]; rfl
        simp [hc, h2, exceptIsOk]

/-- When the flattener accepts a record it emits one row per `zip` tuple:
exactly the minimum list-field length many rows. -/
theorem iter_expanded_dicts_ok_length (dc : String) (dn : Option String) (d : Dict)
    (rows : List Dict) (h : iter_expanded_dicts dc dn d = Except.ok rows) :
    rows.length = minLenFields (listFields d) := by
  unfold iter_expanded_dicts at h
  split at h
  · simp at h
  · split at h
    · simp at h
    · split at h
      · split at h
        · injection h with h1
          rw [← h1]
          simp
        · simp at h
      · simp at h

/-- C7 counterexample: a record whose `period` and `value` arrays agree
(length 1) while a third list field `extra` has length 2 flattens without
any error to a single row — the flattener does not verify that all
list-valued fields share one common length. -/
theorem c7_unequal_extra_list_counterexample :
    iter_column_json_dicts [dExtra] "DC" none =
      Except.ok [[("period", Value.prim (Prim.s "2010")),
                  ("value", Value.prim (Prim.i 1)),
                  ("extra", Value.prim (Prim.s "x")),
                  ("dataset_code", Value.prim (Prim.s "DC"))]] ∧
    (listFields dExtra).map (fun p => p.2.length) = [1, 1, 2] :=
  ⟨rfl, rfl⟩

/-- C7 (amended): the flattening step checks only that the literal
`period` and `value` fields are present with equal Python length —
flattening succeeds precisely when every record passes that check, no
other list field is verified — and on success emits one row per index
position of the `zip`, i.e. the minimum list-field length many rows. -/
theorem c7_only_period_value_checked :
    (∀ (seq : List Dict) (dc : String) (dn : Option String),
        exceptIsOk (iter_column_json_dicts seq dc dn) = true ↔
          ∀ d ∈ seq, pvCheck d = true) ∧
    (∀ (dc : String) (dn : Option String) (d : Dict) (rows : List Dict),
        iter_expanded_dicts dc dn d = Except.ok rows →
        rows.length = minLenFields (listFields d)) := by
  constructor
  · intro seq dc dn
    rw [iter_column_json_dicts_isOk]
    exact List.all_eq_true
  · exact fun dc dn d rows h => iter_expanded_dicts_ok_length dc dn d rows h

/-- Witness for C7: the mismatched-extra record is accepted, and its
single emitted row matches the minimum list-field length. -/
theorem c7_only_period_value_checked_witness :
    exceptIsOk (iter_column_json_dicts [dExtra] "DC" none) = true ∧
    ([[("period", Value.prim (Prim.s "2010")), ("value", Value.prim (Prim.i 1)),
       ("extra", Value.prim (Prim.s "x")), ("dataset_code", Value.prim (Prim.s "DC"))]] :
      List Dict).length = minLenFields (listFields dExtra) :=
  ⟨(c7_only_period_value_checked.1 [dExtra] "DC" none).mpr (by decide),
   c7_only_period_value_checked.2 "DC" none dExtra
     [[("period", Value.prim (Prim.s "2010")), ("value", Value.prim (Prim.i 1)),
       ("extra", Value.prim (Prim.s "x")), ("dataset_code", Value.prim (Prim.s "DC"))]] rfl⟩


/-- C8 counterexample: when the dataset has no display name,
`fetch_series_by_url` still assigns the `dataset_name` column
unconditionally, so every emitted row carries `dataset_name` with a null
value instead of omitting the field. -/
theorem c8_dataset_name_null_column_counterexample :
    fetch_series_by_url serverNoName none 1 = Except.ok (some [rowNoNameFull]) ∧
    Dict.get rowNoNameFull "dataset_name" = some (Value.prim Prim.null) :=
  ⟨rfl, rfl⟩

/-- C8 (amended): flattening the specification example through
`iter_column_json_dicts` yields exactly the two claimed rows, each
carrying the dataset code, with the dataset name attached when non-empty
and omitted (no key at all) when the name is `None` or empty; the pandas
tail of `fetch_series_by_url`, by contrast, always adds a `dataset_name`
column, null when the name is absent. -/
theorem c8_flattening_rows :
    iter_column_json_dicts [exFlat] "DC" (some "DS") =
      Except.ok
        [[("FREQ", Value.prim (Prim.s "A")),
          ("period", Value.prim (Prim.s "2010")),
          ("value", Value.prim (Prim.i 1)),
          ("dataset_code", Value.prim (Prim.s "DC")),
          ("dataset_name", Value.prim (Prim.s "DS"))],
         [("FREQ", Value.prim (Prim.s "A")),
          ("period", Value.prim (Prim.s "2011")),
          ("value", Value.prim (Prim.i 2)),
          ("dataset_code", Value.prim (Prim.s "DC")),
          ("dataset_name", Value.prim (Prim.s "DS"))]] ∧
    iter_column_json_dicts [exFlat] "DC" none =
      Except.ok
        [[("FREQ", Value.prim (Prim.s "A")),
          ("period", Value.prim (Prim.s "2010")),
          ("value", Value.prim (Prim.i 1)),
          ("dataset_code", Value.prim (Prim.s "DC"))],
         [("FREQ", Value.prim (Prim.s "A")),
          ("period", Value.prim (Prim.s "2011")),
          ("value", Value.prim (Prim.i 2)),
          ("dataset_code", Value.prim (Prim.s "DC"))]] ∧
    iter_column_json_dicts [exFlat] "DC" (some "") =
      Except.ok
        [[("FREQ", Value.prim (Prim.s "A")),
          ("period", Value.prim (Prim.s "2010")),
          ("value", Value.prim (Prim.i 1)),
          ("dataset_code", Value.prim (Prim.s "DC"))],
         [("FREQ", Value.prim (Prim.s "A")),
          ("period", Value.prim (Prim.s "2011")),
          ("value", Value.prim (Prim.i 2)),
          ("dataset_code", Value.prim (Prim.s "DC"))]] :=
  ⟨rfl, rfl, rfl⟩

/-- C9 counterexample: a decoded, successful response that both reports an
out-of-range API version (0.10.0) and lacks the `series` key makes
`fetch_series_json_page` raise the version-incompatibility error — the
version check runs before the missing-results-key check, not after it. -/
theorem c9_version_before_series_key_counterexample :
    fetch_series_json_page respOldVersionNoSeries 0 =
      Except.error FetchError.incompatibleApiVersion ∧
    rjOldVersionNoSeries.series = none ∧
    respOldVersionNoSeries.json = some rjOldVersionNoSeries :=
  ⟨rfl, rfl, rfl⟩

/-- C9 (amended): the checks of `fetch_series_json_page` fire in source
order: body decode, HTTP status, then — unconditionally — the API-version
compatibility check, then the missing-`series`-key check, and last the
offset-echo assertion. -/
theorem c9_validation_order :
    (∀ (r : HttpResponse) (o : Nat), r.json = none →
        fetch_series_json_page r o = Except.error FetchError.malformedResponse) ∧
    (∀ (r : HttpResponse) (rj : RespJson) (o : Nat),
        r.json = some rj → r.ok = false →
        fetch_series_json_page r o = Except.error FetchError.requestFailed) ∧
    (∀ (r : HttpResponse) (rj : RespJson) (v : Version) (o : Nat),
        r.json = some rj → r.ok = true →
        rj.meta_python_project_version = some v → api_version_matches v = false →
        fetch_series_json_page r o = Except.error FetchError.incompatibleApiVersion) ∧
    (∀ (r : HttpResponse) (rj : RespJson) (v : Version) (o : Nat),
        r.json = some rj → r.ok = true →
        rj.meta_python_project_version = some v → api_version_matches v = true →
        rj.error_description = none → rj.series = none →
        fetch_series_json_page r o = Except.error FetchError.missingSeriesKey) ∧
    (∀ (r : HttpResponse) (rj : RespJson) (v : Version) (page : SeriesPageJson) (o : Nat),
        r.json = some rj → r.ok = true →
        rj.meta_python_project_version = some v → api_version_matches v = true →
        rj.error_description = none → rj.series = some page → page.offset ≠ o →
        fetch_series_json_page r o = Except.error FetchError.offsetMismatch) := by
  refine ⟨?_, ?_, ?_, ?_, ?_⟩
  · intro r o hj
    simp [fetch_series_json_page, hj]
  · intro r rj o hj hok
    simp [fetch_series_json_page, hj, hok]
  · intro r rj v o hj hok hv hm
    simp [fetch_series_json_page, hj, hok, hv, hm]
  · intro r rj v o hj hok hv hm he hs
    simp [fetch_series_json_page, hj, hok, hv, hm, he, hs]
  · intro r rj v page o hj hok hv hm he hs hoff
    simp [fetch_series_json_page, hj, hok, hv, hm, he, hs, hoff]





/-- Witness for C9: each validation outcome at a concrete response. -/
theorem c9_validation_order_witness :
    fetch_series_json_page ⟨true, none⟩ 0 = Except.error FetchError.malformedResponse ∧
    fetch_series_json_page ⟨false, some rjMissingSeries⟩ 0 =
      Except.error FetchError.requestFailed ∧
    fetch_series_json_page ⟨true, some rjTooNew⟩ 0 =
      Except.error FetchError.incompatibleApiVersion ∧
    fetch_series_json_page ⟨true, some rjMissingSeries⟩ 0 =
      Except.error FetchError.missingSeriesKey ∧
    fetch_series_json_page ⟨true, some rjWrongOffset⟩ 0 =
      Except.error FetchError.offsetMismatch :=
  ⟨c9_validation_order.1 ⟨true, none⟩ 0 rfl,
   c9_validation_order.2.1 ⟨false, some rjMissingSeries⟩ rjMissingSeries 0 rfl rfl,
   c9_validation_order.2.2.1 ⟨true, some rjTooNew⟩ rjTooNew ⟨0, 18, 0⟩ 0 rfl rfl rfl
     (by decide),
   c9_validation_order.2.2.2.1 ⟨true, some rjMissingSeries⟩ rjMissingSeries ⟨0, 14, 0⟩ 0
     rfl rfl rfl (by decide) rfl rfl,
   c9_validation_order.2.2.2.2 ⟨true, some rjWrongOffset⟩ rjWrongOffset ⟨0, 14, 0⟩
     pageEchoSeven 0 rfl rfl rfl (by decide) rfl rfl (by decide)⟩

/-- Witness for C4: the cap bound applied to the concrete truncating run. -/
theorem c4_cap_bound_witness :
    ([recCode "A", recCode "B"] : List Dict).length ≤ 2 :=
  c4_fetch_series_by_url_cap_truncation.1 serverThreeAtOnceRaw 2 1 0 [] none []
    [(0, 0)] [recCode "A", recCode "B"] ("D", none) rfl

/-- A fold of minima never exceeds its initial value. -/
theorem foldl_min_le_init (fs : List (String × List Prim)) (a : Nat) :
    fs.foldl (fun acc q => min acc q.2.length) a ≤ a := by
  induction fs generalizing a with
  | nil => simp
  | cons f rest ih =>
    simp only [List.foldl_cons]
    exact le_trans (ih (min a f.2.length)) (min_le_left _ _)

/-- A fold of minima is bounded by the length of every listed field. -/
theorem foldl_min_le_mem (fs : List (String × List Prim)) :
    ∀ (a : Nat) (p : String × List Prim), p ∈ fs →
      fs.foldl (fun acc q => min acc q.2.length) a ≤ p.2.length := by
  induction fs with
  | nil =>
    intro a p hp
    cases hp
  | cons f rest ih =>
    intro a p hp
    simp only [List.foldl_cons]
    rcases List.mem_cons.mp hp with h | h
    · subst h
      exact le_trans (foldl_min_le_init rest _) (min_le_right _ _)
    · exact ih _ p h

/-- The zip-tuple count is bounded by the length of every list field. -/
theorem minLenFields_le (fs : List (String × List Prim)) (p : String × List Prim)
    (hp : p ∈ fs) : minLenFields fs ≤ p.2.length := by
  cases fs with
  | nil => cases hp
  | cons f rest =>
    rcases List.mem_cons.mp hp with h | h
    · subst h
      exact foldl_min_le_init rest _
    · exact foldl_min_le_mem rest _ p h

/-- C10. The flattener demands the literal `period` and `value` keys: a
record lacking either fails the corresponding assertion, a record whose
`period` and `value` arrays differ in length fails the length assertion —
in every such case before any row of that record is emitted — while no
other list-valued field is asserted (any record passing the period/value
check flattens successfully), and the number of emitted rows never
exceeds the length of any (hence of the shortest) list-valued field. -/
theorem c10_flattener_period_value_assertions :
    (∀ (dc : String) (dn : Option String) (d : Dict),
        d.get "period" = none →
        iter_expanded_dicts dc dn d = Except.error Err.assertPeriodIn) ∧
    (∀ (dc : String) (dn : Option String) (d : Dict) (pv : Value),
        d.get "period" = some pv → d.get "value" = none →
        iter_expanded_dicts dc dn d = Except.error Err.assertValueIn) ∧
    (∀ (dc : String) (dn : Option String) (d : Dict) (lp lv : List Prim),
        d.get "period" = some (Value.list lp) → d.get "value" = some (Value.list lv) →
        lp.length ≠ lv.length →
        iter_expanded_dicts dc dn d = Except.error Err.assertLenEq) ∧
    (∀ (dc : String) (dn : Option String) (d : Dict) (lp lv : List Prim),
        d.get "period" = some (Value.list lp) → d.get "value" = some (Value.list lv) →
        lp.length = lv.length →
        exceptIsOk (iter_expanded_dicts dc dn d) = true) ∧
    (∀ (dc : String) (dn : Option String) (d : Dict) (rows : List Dict),
        iter_expanded_dicts dc dn d = Except.ok rows →
        ∀ p ∈ listFields d, rows.length ≤ p.2.length) := by
  refine ⟨?_, ?_, ?_, ?_, ?_⟩
  · intro dc dn d hp
    simp [iter_expanded_dicts, hp]
  · intro dc dn d pv hp hv
    simp [iter_expanded_dicts, hp, hv]
  · intro dc dn d lp lv hp hv hne
    simp [iter_expanded_dicts, hp, hv, pyLen, hne]
  · intro dc dn d lp lv hp hv hlen
    simp [iter_expanded_dicts, hp, hv, pyLen, hlen, exceptIsOk]
  · intro dc dn d rows h p hp
    rw [iter_expanded_dicts_ok_length dc dn d rows h]
    exact minLenFields_le (listFields d) p hp

/-- Witness for C10: each assertion outcome at a concrete record. -/
theorem c10_flattener_assertions_witness :
    iter_expanded_dicts "DC" none [("value", Value.list [])] =
      Except.error Err.assertPeriodIn ∧
    iter_expanded_dicts "DC" none [("period", Value.list [])] =
      Except.error Err.assertValueIn ∧
    iter_expanded_dicts "DC" none
      [("period", Value.list [Prim.i 1]), ("value", Value.list [])] =
      Except.error Err.assertLenEq ∧
    exceptIsOk (iter_expanded_dicts "DC" none dExtra) = true ∧
    ([[("period", Value.prim (Prim.s "2010")), ("value", Value.prim (Prim.i 1)),
       ("extra", Value.prim (Prim.s "x")), ("dataset_code", Value.prim (Prim.s "DC"))]] :
      List Dict).length ≤ ("extra", [Prim.s "x", Prim.s "y"]).2.length :=
  ⟨c10_flattener_period_value_assertions.1 "DC" none [("value", Value.list [])] rfl,
   c10_flattener_period_value_assertions.2.1 "DC" none
     [("period", Value.list [])] (Value.list []) rfl rfl,
   c10_flattener_period_value_assertions.2.2.1 "DC" none
     [("period", Value.list [Prim.i 1]), ("value", Value.list [])]
     [Prim.i 1] [] rfl rfl (by decide),
   c10_flattener_period_value_assertions.2.2.2.1 "DC" none dExtra
     [Prim.s "2010"] [Prim.i 1] rfl rfl rfl,
   c10_flattener_period_value_assertions.2.2.2.2 "DC" none dExtra
     [[("period", Value.prim (Prim.s "2010")), ("value", Value.prim (Prim.i 1)),
       ("extra", Value.prim (Prim.s "x")), ("dataset_code", Value.prim (Prim.s "DC"))]]
     rfl ("extra", [Prim.s "x", Prim.s "y"]) (by decide)⟩
